import Mathlib

/-!
Verification of the `ombm` bookmark-processing pipeline.

This file gives a shallow embedding, in Lean 4, of the core of the `ombm`
repository: the SQLite cache layer (`ombm/cache.py`), the web scraper
(`ombm/scraper.py`), the LLM client (`ombm/llm.py`) and the processing
pipeline (`ombm/pipeline.py`), together with theorems settling the stated
properties of those components.

Modelling conventions:
* Python strings are sequences of characters (code points); they are
  modelled as `List Char`, so Python slicing `s[:n]` is `List.take n`.
* Async functions are modelled as pure state-passing functions; awaited
  collaborator calls (network, browser, SQLite, the OpenAI endpoint) are
  supplied as explicit function parameters describing their observable
  behaviour, and the number of calls made to them is returned explicitly.
* Python exceptions are modelled with sum types: a function that may raise
  returns `Except` (or an outcome inductive), and each `except` clause of
  the source is a branch of the embedding.
-/

set_option autoImplicit false

namespace OMBM

/-- Python strings as sequences of characters. -/
abbrev PyStr := List Char

/-- Conversion from Lean string literals to the Python-string model. -/
def str (s : String) : PyStr := s.data

/-- Decimal rendering of a natural number, as used by Python f-strings. -/
def natStr (n : Nat) : PyStr := (toString n).data

/-! ### Data model (`ombm/models.py`)

The `models` module is imported by every core module but is not part of the
provided sources; its record types are reconstructed from the spec. -/

/-- Modelled from the spec: `BookmarkRecord` from the missing `ombm/models.py`
(identity, display title, URL, creation timestamp; immutable). The timestamp
is opaque to the pipeline and is modelled as a natural number. -/
structure BookmarkRecord where
  uuid : PyStr
  title : PyStr
  url : PyStr
  created_at : Nat
  deriving Repr, DecidableEq

/-- Modelled from the spec: `ScrapeResult` (the spec name is ExtractedContent)
from the missing `ombm/models.py`: URL, plain-text excerpt, page title. -/
structure ScrapeResult where
  url : PyStr
  text : PyStr
  html_title : PyStr
  deriving Repr, DecidableEq

/-- Modelled from the spec: `LLMMetadata` (the spec name is GeneratedMetadata)
from the missing `ombm/models.py`: URL, generated name, generated
description, token cost. -/
structure LLMMetadata where
  url : PyStr
  name : PyStr
  description : PyStr
  tokens_used : Nat
  deriving Repr, DecidableEq

/-! ### Content cache (`ombm/cache.py`)

`CacheManager` keeps two SQLite tables, `scrape_results` and `llm_metadata`,
each with primary key `url_hash`.  A table is modelled as an association
list from the key to the stored row; the `created_at` column is omitted
because it is never read back.  `CacheManager._hash_url` is the SHA-256 hex
digest of the UTF-8 URL; the digest itself is computed by `hashlib`
(an external collaborator) and is passed as an explicit function `h`. -/

/-- `INSERT OR REPLACE` keyed on the primary key: replace the row holding
the key if present, otherwise add a new row. -/
def upsert {α : Type} (k : PyStr) (v : α) : List (PyStr × α) → List (PyStr × α)
  | [] => [(k, v)]
  | (k2, v2) :: rest => if k = k2 then (k, v) :: rest else (k2, v2) :: upsert k v rest

/-- The cache database: the `scrape_results` table and the `llm_metadata`
table, each keyed by `url_hash`. -/
structure Cache where
  scrapeRows : List (PyStr × ScrapeResult)
  metaRows : List (PyStr × LLMMetadata)
  deriving Repr, DecidableEq

/-- The empty cache (freshly created database). -/
def Cache.empty : Cache := ⟨[], []⟩

/-- `CacheManager.get_scrape_result`: look up the row keyed by the hash of
the URL and rebuild the `ScrapeResult` from its columns. -/
def get_scrape_result (h : PyStr → PyStr) (c : Cache) (url : PyStr) : Option ScrapeResult :=
  c.scrapeRows.lookup (h url)

/-- `CacheManager.store_scrape_result`: upsert the row keyed by the hash of
the result URL. -/
def store_scrape_result (h : PyStr → PyStr) (c : Cache) (result : ScrapeResult) : Cache :=
  { c with scrapeRows := upsert (h result.url) result c.scrapeRows }

/-- `CacheManager.get_llm_metadata`: look up the row keyed by the hash of
the URL and rebuild the `LLMMetadata` from its columns. -/
def get_llm_metadata (h : PyStr → PyStr) (c : Cache) (url : PyStr) : Option LLMMetadata :=
  c.metaRows.lookup (h url)

/-- `CacheManager.store_llm_metadata`: upsert the row keyed by the hash of
the metadata URL. -/
def store_llm_metadata (h : PyStr → PyStr) (c : Cache) (metadata : LLMMetadata) : Cache :=
  { c with metaRows := upsert (h metadata.url) metadata c.metaRows }

/-- `CacheManager.clear_cache`: delete all rows of both tables. -/
def clear_cache (_c : Cache) : Cache := Cache.empty

/-- Well-formedness of one cache table with respect to the key scheme of
`ombm/cache.py`: keys are distinct (`url_hash` is the primary key) and each
row is stored under the hash of its own URL.  Every table reachable from the
empty database through the store operations satisfies this. -/
def tableWF {α : Type} (geturl : α → PyStr) (h : PyStr → PyStr)
    (t : List (PyStr × α)) : Prop :=
  (t.map Prod.fst).Nodup ∧ ∀ p ∈ t, p.1 = h (geturl p.2)

/-- Well-formedness of the whole cache database. -/
def Cache.wf (h : PyStr → PyStr) (c : Cache) : Prop :=
  tableWF ScrapeResult.url h c.scrapeRows ∧ tableWF LLMMetadata.url h c.metaRows

theorem lookup_upsert_self {α : Type} (k : PyStr) (v : α) (t : List (PyStr × α)) :
    (upsert k v t).lookup k = some v := by
  induction t with
  | nil => simp [upsert, List.lookup]
  | cons p rest ih =>
    obtain ⟨k2, v2⟩ := p
    by_cases hk : k = k2
    · simp [upsert, hk, List.lookup]
    · have hb : (k == k2) = false := beq_eq_false_iff_ne.mpr hk
      simp [upsert, hk, List.lookup, hb, ih]

theorem lookup_upsert_ne {α : Type} (k k2 : PyStr) (v : α) (t : List (PyStr × α))
    (hne : k2 ≠ k) : (upsert k v t).lookup k2 = t.lookup k2 := by
  have hb : (k2 == k) = false := beq_eq_false_iff_ne.mpr hne
  induction t with
  | nil => simp [upsert, List.lookup, hb]
  | cons p rest ih =>
    obtain ⟨k3, v3⟩ := p
    by_cases hk : k = k3
    · subst hk
      simp [upsert, List.lookup, hb]
    · simp only [upsert, if_neg hk, List.lookup, ih]

/-- In a hash-consistent table without a row keyed `h u`, no row stores a
value whose URL is `u`. -/
theorem countP_url_zero {α : Type} (geturl : α → PyStr) (h : PyStr → PyStr)
    (t : List (PyStr × α)) (u : PyStr)
    (hcons : ∀ p ∈ t, p.1 = h (geturl p.2))
    (hmiss : h u ∉ t.map Prod.fst) :
    t.countP (fun p => geturl p.2 == u) = 0 := by
  induction t with
  | nil => simp
  | cons p rest ih =>
    obtain ⟨k, v⟩ := p
    have hk : k = h (geturl v) := hcons (k, v) (by simp)
    have hvne : ¬ geturl v = u := by
      intro hvu
      apply hmiss
      rw [show h u = k by rw [hk, hvu]]
      rw [List.map_cons]
      exact List.mem_cons_self _ _
    rw [List.countP_cons]
    have hrest := ih (fun q hq => hcons q (by simp [hq])) (fun hmem => hmiss (by simp [hmem]))
    simp [hrest, hvne]

/-- Upserting a value for URL `u` into a well-formed table leaves exactly one
row whose stored value has URL `u`. -/
theorem countP_url_upsert {α : Type} (geturl : α → PyStr) (h : PyStr → PyStr)
    (t : List (PyStr × α)) (u : PyStr) (v : α)
    (hwf : tableWF geturl h t) (hv : geturl v = u) :
    (upsert (h u) v t).countP (fun p => geturl p.2 == u) = 1 := by
  obtain ⟨hnodup, hcons⟩ := hwf
  induction t with
  | nil => simp [upsert, hv]
  | cons p rest ih =>
    obtain ⟨k2, v2⟩ := p
    have hk2 : k2 = h (geturl v2) := hcons (k2, v2) (by simp)
    have hnodup2 : (rest.map Prod.fst).Nodup := by
      rw [List.map_cons, List.nodup_cons] at hnodup
      exact hnodup.2
    have hk2notin : k2 ∉ rest.map Prod.fst := by
      rw [List.map_cons, List.nodup_cons] at hnodup
      exact hnodup.1
    by_cases hk : h u = k2
    · -- the head row is replaced
      have hzero : rest.countP (fun p => geturl p.2 == u) = 0 := by
        refine countP_url_zero geturl h rest u (fun q hq => hcons q (by simp [hq])) ?_
        rw [hk]
        exact hk2notin
      simp [upsert, hk, List.countP_cons, hzero, hv]
    · -- the head row is kept; it cannot store URL `u`
      have hvne : ¬ geturl v2 = u := by
        intro hvu
        exact hk (by rw [hk2, hvu])
      rw [upsert]
      simp only [if_neg (fun hh => hk hh)]
      rw [List.countP_cons]
      have := ih hnodup2 (fun q hq => hcons q (by simp [hq]))
      simp [this, hvne]

/-! ### Web scraper (`ombm/scraper.py`)

The readability reduction (`readability.Document` + `BeautifulSoup`) and the
plain `BeautifulSoup.get_text` fallback are external libraries; they are
modelled as explicit functions `readabilityText` and `basicText` from HTML
to text, together with a predicate `readabilityFails` marking the HTML
inputs on which the readability path raises (the `except` branch of
`_extract_readable_text`). -/

/-- `PlaywrightScraper._extract_readable_text`: reduce HTML to readable
text, falling back to basic extraction when readability raises; in both
branches the text is truncated to 10,000 characters with a `...` marker. -/
def extract_readable_text_playwright (readabilityText basicText : PyStr → PyStr)
    (readabilityFails : PyStr → Bool) (html_content : PyStr) : PyStr :=
  if readabilityFails html_content then
    let text := basicText html_content
    if text.length > 10000 then text.take 10000 ++ str "..." else text
  else
    let text := readabilityText html_content
    if text.length > 10000 then text.take 10000 ++ str "..." else text

/-- `HTTPXScraper._extract_readable_text`: identical reduction and
truncation, as written a second time in the HTTPX strategy. -/
def extract_readable_text_httpx (readabilityText basicText : PyStr → PyStr)
    (readabilityFails : PyStr → Bool) (html_content : PyStr) : PyStr :=
  if readabilityFails html_content then
    let text := basicText html_content
    if text.length > 10000 then text.take 10000 ++ str "..." else text
  else
    let text := readabilityText html_content
    if text.length > 10000 then text.take 10000 ++ str "..." else text

/-- Observable behaviour of one Playwright page interaction for a URL:
`page.goto` returning no response, a response with a status plus the
rendered HTML and title, or an exception raised anywhere in the page
interaction (navigation, load-state wait, content read). -/
inductive NavOutcome where
  | ok (status : Nat) (html : PyStr) (title : PyStr)
  | noResponse
  | exn (msg : PyStr)

/-- The mutable state of a `PlaywrightScraper`: whether `start` has
established the browser context (`_context is not None`). -/
structure PlaywrightScraperState where
  contextStarted : Bool
  deriving Repr, DecidableEq

/-- `PlaywrightScraper.fetch`.  Before the `try` block it raises
`ScraperError("Browser not started. Use async context manager.")` when the
context is absent; inside the block every raised exception (including the
explicitly raised `ScraperError`s for a missing response or an HTTP error
status) is re-wrapped as `ScraperError("Playwright fetch failed: ...")`. -/
def playwright_fetch (ps : PlaywrightScraperState) (nav : PyStr → NavOutcome)
    (readabilityText basicText : PyStr → PyStr) (readabilityFails : PyStr → Bool)
    (url : PyStr) : Except PyStr ScrapeResult :=
  if !ps.contextStarted then
    .error (str "Browser not started. Use async context manager.")
  else
    match nav url with
    | .noResponse =>
        .error (str "Playwright fetch failed: Failed to load page: " ++ url)
    | .exn m => .error (str "Playwright fetch failed: " ++ m)
    | .ok status html title =>
        if status ≥ 400 then
          .error (str "Playwright fetch failed: HTTP " ++ natStr status
            ++ str " for URL: " ++ url)
        else
          .ok ⟨url,
            extract_readable_text_playwright readabilityText basicText readabilityFails html,
            title⟩

/-- Observable behaviour of one HTTPX GET for a URL: a body (success),
an HTTP error status raised by `raise_for_status`, a transport error, or
any other exception. -/
inductive HttpxOutcome where
  | ok (body : PyStr)
  | statusError (code : Nat) (msg : PyStr)
  | requestError (msg : PyStr)
  | exn (msg : PyStr)

/-- `HTTPXScraper.fetch`.  The page title is the stripped `<title>` content
extracted by BeautifulSoup from the body, modelled as the external function
`titleOf`. -/
def httpx_fetch (http : PyStr → HttpxOutcome) (titleOf : PyStr → PyStr)
    (readabilityText basicText : PyStr → PyStr) (readabilityFails : PyStr → Bool)
    (url : PyStr) : Except PyStr ScrapeResult :=
  match http url with
  | .statusError code m => .error (str "HTTP " ++ natStr code ++ str ": " ++ m)
  | .requestError m => .error (str "Request failed: " ++ m)
  | .exn m => .error (str "HTTPX fetch failed: " ++ m)
  | .ok body =>
      .ok ⟨url,
        extract_readable_text_httpx readabilityText basicText readabilityFails body,
        titleOf body⟩

/-- The state of a `WebScraper`: `_playwright_scraper` is `None` until
`__aenter__` runs with `use_playwright=True`. -/
structure WebScraperState where
  playwrightScraper : Option PlaywrightScraperState
  deriving Repr, DecidableEq

/-- `WebScraper.fetch`: try the Playwright strategy when it is present; on
`ScraperError`, re-raise when `retry_with_fallback` is false, otherwise fall
back to the HTTPX strategy.  When the Playwright strategy is absent, go
straight to the HTTPX strategy. -/
def web_scraper_fetch (ws : WebScraperState) (nav : PyStr → NavOutcome)
    (http : PyStr → HttpxOutcome) (titleOf : PyStr → PyStr)
    (readabilityText basicText : PyStr → PyStr) (readabilityFails : PyStr → Bool)
    (url : PyStr) (retry_with_fallback : Bool) : Except PyStr ScrapeResult :=
  match ws.playwrightScraper with
  | some ps =>
      match playwright_fetch ps nav readabilityText basicText readabilityFails url with
      | .ok r => .ok r
      | .error e =>
          if !retry_with_fallback then .error e
          else httpx_fetch http titleOf readabilityText basicText readabilityFails url
  | none => httpx_fetch http titleOf readabilityText basicText readabilityFails url

/-! ### LLM service (`ombm/llm.py`)

The OpenAI chat-completion endpoint is an external collaborator; one call
is modelled by the observable outcome of attempt number `i`, a value of
`LLMAttempt`.  JSON decoding (`json.loads`) is likewise external: a
successful response carries its parse outcome directly, with JSON objects
restricted to string-valued fields (the only shape the pipeline produces
and the spec describes).  Backoff sleeps are recorded as rational numbers
of seconds.  The Jinja prompt rendering does not influence any modelled
output and is not represented. -/

/-- Parse outcome of a chat-completion response in `title_desc`:
no/empty message content, a `json.loads` failure, or a decoded JSON object
given as its field list. -/
inductive ResponseParse where
  | empty
  | badJson (msg : PyStr)
  | object (fields : List (PyStr × PyStr))

/-- Observable outcome of one `chat.completions.create` call in
`title_desc`: a response (with its parse outcome and total token usage,
`0` when usage is absent), or one of the exception classes the source
handles: `openai.RateLimitError`, `openai.APITimeoutError`,
`openai.APIError`, or any other exception. -/
inductive LLMAttempt where
  | response (parsed : ResponseParse) (tokens : Nat)
  | rateLimit (msg : PyStr)
  | timeout (msg : PyStr)
  | apiError (msg : PyStr)
  | unexpected (msg : PyStr)

/-- Decidable equality for `Except`, used to evaluate concrete runs. -/
instance exceptDecEq {ε α : Type} [DecidableEq ε] [DecidableEq α] :
    DecidableEq (Except ε α) := fun a b =>
  match a, b with
  | .ok x, .ok y =>
      if h : x = y then .isTrue (by rw [h]) else .isFalse (by intro hc; cases hc; exact h rfl)
  | .error x, .error y =>
      if h : x = y then .isTrue (by rw [h]) else .isFalse (by intro hc; cases hc; exact h rfl)
  | .ok _, .error _ => .isFalse (by intro hc; cases hc)
  | .error _, .ok _ => .isFalse (by intro hc; cases hc)

/-- Result of a `title_desc` run: the returned metadata or the raised
`LLMError` message, the number of completion calls made, and the backoff
sleeps performed (in seconds). -/
structure LLMRun where
  result : Except PyStr LLMMetadata
  attemptsMade : Nat
  sleeps : List ℚ
  deriving Repr, DecidableEq

/-- `LLMService.title_desc`, truncation of the text embedded in the prompt:
at most 8,000 characters, with a `...` marker when cut. -/
def truncate_for_prompt (text : PyStr) : PyStr :=
  if text.length > 8000 then text.take 8000 ++ str "..." else text

/-- The retry loop of `LLMService.title_desc` (`for attempt in
range(self.max_retries)`), by recursion on the remaining iterations `rem`
with `i` the current value of `attempt`.  `LLMError`s raised inside the
`try` block (empty response, invalid JSON, missing fields) are caught by
the final generic `except Exception` handler, so they retry with a fixed
1-second sleep; a rate limit sleeps `2^attempt + attempt * 0.1` seconds; a
timeout sleeps 1 second; any other `openai.APIError` fails immediately. -/
def title_desc_go (A : Nat → LLMAttempt) (max_retries : Nat) (url : PyStr) :
    Nat → Nat → LLMRun
  | _, 0 =>
      ⟨.error (str "Failed to generate metadata after " ++ natStr max_retries
        ++ str " attempts"), 0, []⟩
  | i, rem + 1 =>
    match A i with
    | .response .empty _ =>
        if i + 1 < max_retries then
          let r := title_desc_go A max_retries url (i + 1) rem
          ⟨r.result, r.attemptsMade + 1, 1 :: r.sleeps⟩
        else
          ⟨.error (str "Failed to generate metadata: Empty response from OpenAI"), 1, []⟩
    | .response (.badJson m) _ =>
        if i + 1 < max_retries then
          let r := title_desc_go A max_retries url (i + 1) rem
          ⟨r.result, r.attemptsMade + 1, 1 :: r.sleeps⟩
        else
          ⟨.error (str "Failed to generate metadata: Invalid JSON response: " ++ m), 1, []⟩
    | .response (.object fields) tokens =>
        match fields.lookup (str "name"), fields.lookup (str "description") with
        | some n, some d =>
            ⟨.ok ⟨url, n.take 80, d.take 200, tokens⟩, 1, []⟩
        | _, _ =>
            if i + 1 < max_retries then
              let r := title_desc_go A max_retries url (i + 1) rem
              ⟨r.result, r.attemptsMade + 1, 1 :: r.sleeps⟩
            else
              ⟨.error (str "Failed to generate metadata: Response missing required fields \x27name\x27 or \x27description\x27"), 1, []⟩
    | .rateLimit _ =>
        if i + 1 < max_retries then
          let r := title_desc_go A max_retries url (i + 1) rem
          ⟨r.result, r.attemptsMade + 1, ((2 : ℚ) ^ i + i / 10) :: r.sleeps⟩
        else
          ⟨.error (str "Rate limit exceeded after " ++ natStr max_retries
            ++ str " attempts"), 1, []⟩
    | .timeout _ =>
        if i + 1 < max_retries then
          let r := title_desc_go A max_retries url (i + 1) rem
          ⟨r.result, r.attemptsMade + 1, 1 :: r.sleeps⟩
        else
          ⟨.error (str "Request timeout after " ++ natStr max_retries
            ++ str " attempts"), 1, []⟩
    | .apiError m => ⟨.error (str "OpenAI API error: " ++ m), 1, []⟩
    | .unexpected m =>
        if i + 1 < max_retries then
          let r := title_desc_go A max_retries url (i + 1) rem
          ⟨r.result, r.attemptsMade + 1, 1 :: r.sleeps⟩
        else
          ⟨.error (str "Failed to generate metadata: " ++ m), 1, []⟩

/-- `LLMService.title_desc`: run the retry loop from attempt 0. -/
def title_desc (A : Nat → LLMAttempt) (max_retries : Nat) (url : PyStr) : LLMRun :=
  title_desc_go A max_retries url 0 max_retries

/-- Parse outcome of a chat-completion response in `propose_taxonomy`:
no/empty content, a `json.loads` failure, a JSON object without a
`folders` key, a `folders` value that is not a list, or a folder list
(each folder subtree kept opaque). -/
inductive TaxResponseParse where
  | empty
  | badJson (msg : PyStr)
  | missingFolders
  | foldersNotList
  | folders (fs : List PyStr)

/-- Observable outcome of one `chat.completions.create` call in
`propose_taxonomy`. -/
inductive TaxAttempt where
  | response (parsed : TaxResponseParse) (tokens : Nat)
  | rateLimit (msg : PyStr)
  | timeout (msg : PyStr)
  | apiError (msg : PyStr)
  | unexpected (msg : PyStr)

/-- The `_metadata` entry that `propose_taxonomy` adds to a successful
taxonomy: token usage, input count, model id. -/
structure TaxonomyMeta where
  tokens_used : Nat
  input_count : Nat
  model : PyStr
  deriving Repr, DecidableEq

/-- The dictionary returned by `propose_taxonomy`: the `folders` list and,
when the taxonomy came from the model, the added `_metadata` entry (the
empty-input early return carries none). -/
structure TaxonomyData where
  folders : List PyStr
  meta : Option TaxonomyMeta
  deriving Repr, DecidableEq

/-- Result of a `propose_taxonomy` run: the returned dictionary or the
raised `LLMError` message, the number of completion calls made, and the
backoff sleeps performed (in seconds). -/
structure TaxRun where
  result : Except PyStr TaxonomyData
  attemptsMade : Nat
  sleeps : List ℚ
  deriving Repr, DecidableEq

/-- The retry loop of `LLMService.propose_taxonomy`, mirroring
`title_desc_go`; timeouts and generic exceptions here sleep 2 seconds. -/
def propose_taxonomy_go (A : Nat → TaxAttempt) (max_retries : Nat)
    (model : PyStr) (input_count : Nat) : Nat → Nat → TaxRun
  | _, 0 =>
      ⟨.error (str "Failed to generate taxonomy after " ++ natStr max_retries
        ++ str " attempts"), 0, []⟩
  | i, rem + 1 =>
    match A i with
    | .response .empty _ =>
        if i + 1 < max_retries then
          let r := propose_taxonomy_go A max_retries model input_count (i + 1) rem
          ⟨r.result, r.attemptsMade + 1, 2 :: r.sleeps⟩
        else
          ⟨.error (str "Failed to generate taxonomy: Empty response from OpenAI"), 1, []⟩
    | .response (.badJson m) _ =>
        if i + 1 < max_retries then
          let r := propose_taxonomy_go A max_retries model input_count (i + 1) rem
          ⟨r.result, r.attemptsMade + 1, 2 :: r.sleeps⟩
        else
          ⟨.error (str "Failed to generate taxonomy: Invalid JSON response: " ++ m), 1, []⟩
    | .response .missingFolders _ =>
        if i + 1 < max_retries then
          let r := propose_taxonomy_go A max_retries model input_count (i + 1) rem
          ⟨r.result, r.attemptsMade + 1, 2 :: r.sleeps⟩
        else
          ⟨.error (str "Failed to generate taxonomy: Response missing required \x27folders\x27 field"), 1, []⟩
    | .response .foldersNotList _ =>
        if i + 1 < max_retries then
          let r := propose_taxonomy_go A max_retries model input_count (i + 1) rem
          ⟨r.result, r.attemptsMade + 1, 2 :: r.sleeps⟩
        else
          ⟨.error (str "Failed to generate taxonomy: \x27folders\x27 field must be a list"), 1, []⟩
    | .response (.folders fs) tokens =>
        ⟨.ok ⟨fs, some ⟨tokens, input_count, model⟩⟩, 1, []⟩
    | .rateLimit _ =>
        if i + 1 < max_retries then
          let r := propose_taxonomy_go A max_retries model input_count (i + 1) rem
          ⟨r.result, r.attemptsMade + 1, ((2 : ℚ) ^ i + i / 10) :: r.sleeps⟩
        else
          ⟨.error (str "Rate limit exceeded after " ++ natStr max_retries
            ++ str " attempts"), 1, []⟩
    | .timeout _ =>
        if i + 1 < max_retries then
          let r := propose_taxonomy_go A max_retries model input_count (i + 1) rem
          ⟨r.result, r.attemptsMade + 1, 2 :: r.sleeps⟩
        else
          ⟨.error (str "Request timeout after " ++ natStr max_retries
            ++ str " attempts"), 1, []⟩
    | .apiError m => ⟨.error (str "OpenAI API error: " ++ m), 1, []⟩
    | .unexpected m =>
        if i + 1 < max_retries then
          let r := propose_taxonomy_go A max_retries model input_count (i + 1) rem
          ⟨r.result, r.attemptsMade + 1, 2 :: r.sleeps⟩
        else
          ⟨.error (str "Failed to generate taxonomy: " ++ m), 1, []⟩

/-- `LLMService.propose_taxonomy`: on an empty metadata list, return
`{"folders": []}` at once without calling the model; otherwise run the
retry loop from attempt 0. -/
def propose_taxonomy (A : Nat → TaxAttempt) (max_retries : Nat) (model : PyStr)
    (metadata_list : List LLMMetadata) : TaxRun :=
  if metadata_list.isEmpty then ⟨.ok ⟨[], none⟩, 0, []⟩
  else propose_taxonomy_go A max_retries model metadata_list.length 0 max_retries

/-! ### Processing pipeline (`ombm/pipeline.py`)

`BookmarkProcessor.process_bookmark` combines cache lookups, the scraper
and the LLM service.  The collaborators are modelled by a `PipelineEnv`:
the URL hash, the observable behaviour of `WebScraper.fetch` per URL, the
observable behaviour of `LLMService.title_desc_from_scrape_result` per
scrape result, and, for the batch driver, an optional exception escaping
the per-task wrapper of task `i` (for example one raised by the progress
callback after the item completed).  Cache reads and writes are modelled as
reliable; the cache state is threaded explicitly.

Batch concurrency (`asyncio.Semaphore` + `asyncio.gather`) is modelled by a
schedule: an arbitrary completion order in which the per-bookmark tasks
run, each task atomically transforming the shared cache.  `asyncio.gather`
places each task result at the task's input index regardless of that
order, which is how the source realises order preservation. -/

/-- Observable behaviour of `WebScraper.fetch` for a URL: a result, a
raised `ScraperError` (its message), or any other exception. -/
inductive FetchOutcome where
  | ok (r : ScrapeResult)
  | scraperError (msg : PyStr)
  | unexpected (msg : PyStr)

/-- Observable behaviour of `LLMService.title_desc_from_scrape_result` for
a scrape result: metadata, a raised `LLMError` (its message), or any other
exception. -/
inductive GenOutcome where
  | ok (m : LLMMetadata)
  | llmError (msg : PyStr)
  | unexpected (msg : PyStr)

/-- The collaborators of a `BookmarkProcessor`. -/
structure PipelineEnv where
  hashUrl : PyStr → PyStr
  scraperFetch : PyStr → FetchOutcome
  llmGenerate : ScrapeResult → GenOutcome
  taskExn : Nat → Option PyStr

/-- `ProcessingResult` from `ombm/pipeline.py`. -/
structure ProcessingResult where
  bookmark : BookmarkRecord
  scrape_result : Option ScrapeResult
  llm_metadata : Option LLMMetadata
  error : Option PyStr
  used_cache : Bool
  deriving Repr, DecidableEq

/-- The derived `success` field of `ProcessingResult`:
`error is None and llm_metadata is not None`. -/
def ProcessingResult.success (r : ProcessingResult) : Bool :=
  r.error.isNone && r.llm_metadata.isSome

/-- Numbers of calls made to the scraper and to the LLM service while
processing one bookmark. -/
structure CallCounts where
  scrapeCalls : Nat
  llmCalls : Nat
  deriving Repr, DecidableEq

/-- Output of processing one bookmark: the `ProcessingResult`, the cache
state afterwards, and the collaborator call counts. -/
structure StepOut where
  result : ProcessingResult
  cache : Cache
  calls : CallCounts
  deriving Repr

/-- Steps 2 of `process_bookmark` (LLM metadata), entered with the scrape
result from step 1, the accumulated `used_cache` flag and the scraper call
count. -/
def process_bookmark_step2 (env : PipelineEnv) (use_cache force_refresh : Bool)
    (b : BookmarkRecord) (sr : ScrapeResult) (used_cache : Bool)
    (c : Cache) (scrapeCalls : Nat) : StepOut :=
  let cachedMeta : Option LLMMetadata :=
    if use_cache && !force_refresh then get_llm_metadata env.hashUrl c b.url else none
  match cachedMeta with
  | some m => ⟨⟨b, some sr, some m, none, true⟩, c, ⟨scrapeCalls, 0⟩⟩
  | none =>
      match env.llmGenerate sr with
      | .llmError e =>
          ⟨⟨b, some sr, none, some (str "LLM processing failed: " ++ e), false⟩,
            c, ⟨scrapeCalls, 1⟩⟩
      | .unexpected e =>
          ⟨⟨b, none, none, some (str "Unexpected error: " ++ e), false⟩,
            c, ⟨scrapeCalls, 1⟩⟩
      | .ok m =>
          let c2 := if use_cache then store_llm_metadata env.hashUrl c m else c
          ⟨⟨b, some sr, some m, none, used_cache⟩, c2, ⟨scrapeCalls, 1⟩⟩

/-- `BookmarkProcessor.process_bookmark`: cache-first lookup of the scrape
result, scrape on a miss (failures captured as per-item outcomes), then
cache-first lookup of the metadata, generation on a miss; a raised
`ScraperError` becomes `"Scraping failed: ..."`, a raised `LLMError`
becomes `"LLM processing failed: ..."`, and any other exception is caught
at the item boundary as `"Unexpected error: ..."`. -/
def process_bookmark (env : PipelineEnv) (use_cache force_refresh : Bool)
    (c : Cache) (b : BookmarkRecord) : StepOut :=
  let cachedScrape : Option ScrapeResult :=
    if use_cache && !force_refresh then get_scrape_result env.hashUrl c b.url else none
  match cachedScrape with
  | some sr => process_bookmark_step2 env use_cache force_refresh b sr true c 0
  | none =>
      match env.scraperFetch b.url with
      | .scraperError e =>
          ⟨⟨b, none, none, some (str "Scraping failed: " ++ e), false⟩, c, ⟨1, 0⟩⟩
      | .unexpected e =>
          ⟨⟨b, none, none, some (str "Unexpected error: " ++ e), false⟩, c, ⟨1, 0⟩⟩
      | .ok sr =>
          let c2 := if use_cache then store_scrape_result env.hashUrl c sr else c
          process_bookmark_step2 env use_cache force_refresh b sr false c2 1

/-- Run the per-bookmark tasks in the completion order given by the
schedule, threading the shared cache; each task contributes the pair of its
input index and its `gather` slot value — the processing result, or the
exception escaping its wrapper.  Indices outside the bookmark list do not
occur in real schedules and contribute nothing. -/
def run_schedule (env : PipelineEnv) (use_cache force_refresh : Bool)
    (bs : List BookmarkRecord) :
    List Nat → Cache → List (Nat × Except PyStr ProcessingResult) × Cache
  | [], c => ([], c)
  | i :: rest, c =>
      match bs[i]? with
      | none => run_schedule env use_cache force_refresh bs rest c
      | some b =>
          let o := process_bookmark env use_cache force_refresh c b
          let slot : Except PyStr ProcessingResult :=
            match env.taskExn i with
            | some e => .error e
            | none => .ok o.result
          let (tail, cf) := run_schedule env use_cache force_refresh bs rest o.cache
          ((i, slot) :: tail, cf)

/-- Placeholder bookmark; never reached by a schedule covering the input. -/
def dfltBookmark : BookmarkRecord := ⟨[], [], [], 0⟩

/-- Placeholder outcome; never reached by a schedule covering the input. -/
def dfltOutcome : ProcessingResult := ⟨dfltBookmark, none, none, none, false⟩

/-- The result-collection loop after `asyncio.gather` (pipeline lines
234-248): for input position `i`, an exception in slot `i` is converted to
a failure outcome for `bookmarks[i]` with error `"Task failed: ..."`;
otherwise the slot holds the `ProcessingResult`. -/
def gather_results (bs : List BookmarkRecord)
    (slots : List (Nat × Except PyStr ProcessingResult)) : List ProcessingResult :=
  (List.range bs.length).map fun i =>
    match slots.lookup i with
    | some (.ok r) => r
    | some (.error e) =>
        ⟨bs.getD i dfltBookmark, none, none, some (str "Task failed: " ++ e), false⟩
    | none => { dfltOutcome with bookmark := bs.getD i dfltBookmark }

/-- `BookmarkProcessor.process_bookmarks`: run all tasks under the given
completion schedule and collect one outcome per input bookmark, in input
order. -/
def process_bookmarks (env : PipelineEnv) (use_cache force_refresh : Bool)
    (bs : List BookmarkRecord) (sched : List Nat) (c : Cache) : List ProcessingResult :=
  gather_results bs (run_schedule env use_cache force_refresh bs sched c).1

/-! ## Theorems -/

/-- C4: with `max_retries = 3` and every completion call signalling a rate
limit, `title_desc` makes exactly 3 attempts, sleeping the exponential
backoff `2 ^ attempt` seconds plus the linear jitter `attempt * 0.1`
between attempts, and then raises `LLMError` identifying rate-limit
exhaustion; no fourth attempt is made. -/
theorem c4_rate_limit_exhaustion (A : Nat → LLMAttempt) (url : PyStr)
    (hA : ∀ i, ∃ m, A i = .rateLimit m) :
    title_desc A 3 url =
      ⟨.error (str "Rate limit exceeded after 3 attempts"), 3, [1, 21 / 10]⟩ := by
  obtain ⟨m0, h0⟩ := hA 0
  obtain ⟨m1, h1⟩ := hA 1
  obtain ⟨m2, h2⟩ := hA 2
  show title_desc_go A 3 url 0 3 = _
  simp only [title_desc_go, h0, h1, h2]
  norm_num [LLMRun.mk.injEq]
  decide

/-- Witness for C4 at the constant rate-limited endpoint. -/
theorem c4_rate_limit_exhaustion_witness :
    title_desc (fun _ => .rateLimit []) 3 [] =
      ⟨.error (str "Rate limit exceeded after 3 attempts"), 3, [1, 21 / 10]⟩ :=
  c4_rate_limit_exhaustion (fun _ => .rateLimit []) [] (fun _ => ⟨[], rfl⟩)

/-- C7: a completion response parsed to a JSON object with `name` and
`description` fields yields metadata whose name is the first 80 characters
of the response name and whose description is the first 200 characters of
the response description, hence within the 80/200 bounds. -/
theorem c7_field_length_enforcement (A : Nat → LLMAttempt) (max_retries : Nat)
    (url : PyStr) (fields : List (PyStr × PyStr)) (n d : PyStr) (tokens : Nat)
    (hmr : 1 ≤ max_retries)
    (hA : A 0 = .response (.object fields) tokens)
    (hn : fields.lookup (str "name") = some n)
    (hd : fields.lookup (str "description") = some d) :
    (title_desc A max_retries url).result = .ok ⟨url, n.take 80, d.take 200, tokens⟩
      ∧ (n.take 80).length ≤ 80 ∧ (d.take 200).length ≤ 200 := by
  obtain ⟨rem, hrem⟩ : ∃ rem, max_retries = rem + 1 := ⟨max_retries - 1, by omega⟩
  refine ⟨?_, ?_, ?_⟩
  · simp only [title_desc, hrem, title_desc_go, hA]
    rw [hn, hd]
  · rw [List.length_take]
    exact min_le_left _ _
  · rw [List.length_take]
    exact min_le_left _ _

/-- The endpoint behaviour of the C7 witness: a 150-character name and a
300-character description. -/
def c7Endpoint : Nat → LLMAttempt := fun _ =>
  .response (.object [(str "name", List.replicate 150 'x'),
    (str "description", List.replicate 300 'y')]) 5

/-- Witness for C7: the 150/300-character response is truncated to the
first 80/200 characters. -/
theorem c7_field_length_enforcement_witness :
    (title_desc c7Endpoint 3 []).result =
      .ok ⟨[], (List.replicate 150 'x').take 80, (List.replicate 300 'y').take 200, 5⟩
      ∧ ((List.replicate 150 'x').take 80).length ≤ 80
      ∧ ((List.replicate 300 'y').take 200).length ≤ 200 :=
  c7_field_length_enforcement c7Endpoint 3 [] _ _ _ 5 (by norm_num) rfl rfl rfl

/-- C10: `propose_taxonomy` on an empty metadata list returns
`{"folders": []}` immediately: no completion call is made, no backoff sleep
happens, and no error is raised. -/
theorem c10_empty_taxonomy (A : Nat → TaxAttempt) (max_retries : Nat) (model : PyStr) :
    propose_taxonomy A max_retries model [] = ⟨.ok ⟨[], none⟩, 0, []⟩ := rfl

/-- C6: in either extraction strategy and in either reduction branch, plain
text longer than 10,000 characters becomes exactly its first 10,000
characters plus the `...` marker, text of length at most 10,000 is returned
unmodified, and the two strategies compute identical results. -/
theorem c6_truncation_boundary (readabilityText basicText : PyStr → PyStr)
    (readabilityFails : PyStr → Bool) (html : PyStr) :
    let text := if readabilityFails html then basicText html else readabilityText html
    (text.length > 10000 →
      extract_readable_text_playwright readabilityText basicText readabilityFails html
        = text.take 10000 ++ str "..."
      ∧ (text.take 10000).length = 10000)
    ∧ (text.length ≤ 10000 →
      extract_readable_text_playwright readabilityText basicText readabilityFails html = text)
    ∧ extract_readable_text_playwright readabilityText basicText readabilityFails html
        = extract_readable_text_httpx readabilityText basicText readabilityFails html := by
  intro text
  have hsel : extract_readable_text_playwright readabilityText basicText readabilityFails html
      = if text.length > 10000 then text.take 10000 ++ str "..." else text := by
    unfold extract_readable_text_playwright
    by_cases hrf : readabilityFails html <;> simp [hrf, text]
  refine ⟨?_, ?_, ?_⟩
  · intro hlong
    refine ⟨by rw [hsel, if_pos hlong], ?_⟩
    rw [List.length_take]
    omega
  · intro hshort
    rw [hsel, if_neg (by omega)]
  · rfl

/-- The readability reduction of the long C6 witness: 10,050 characters. -/
def c6Long : PyStr → PyStr := fun _ => List.replicate 10050 'a'

/-- The readability reduction of the short C6 witness: 9,999 characters. -/
def c6Short : PyStr → PyStr := fun _ => List.replicate 9999 'b'

/-- Witness for C6 at texts of lengths 10,050 and 9,999. -/
theorem c6_truncation_boundary_witness :
    (extract_readable_text_playwright c6Long c6Long (fun _ => false) []
        = (List.replicate 10050 'a').take 10000 ++ str "..."
      ∧ ((List.replicate 10050 'a').take 10000).length = 10000)
    ∧ extract_readable_text_playwright c6Short c6Short (fun _ => false) []
        = List.replicate 9999 'b'
    ∧ extract_readable_text_playwright c6Long c6Long (fun _ => false) []
        = extract_readable_text_httpx c6Long c6Long (fun _ => false) [] :=
  ⟨(c6_truncation_boundary c6Long c6Long (fun _ => false) []).1
      (by show (List.replicate 10050 'a').length > 10000
          rw [List.length_replicate]; norm_num),
    (c6_truncation_boundary c6Short c6Short (fun _ => false) []).2.1
      (by show (List.replicate 9999 'b').length ≤ 10000
          rw [List.length_replicate]; norm_num),
    (c6_truncation_boundary c6Long c6Long (fun _ => false) []).2.2⟩

/-- C8 counterexample: a `WebScraper` whose Playwright strategy is
configured but whose browser context was never started, fetching with the
default `retry_with_fallback=True` against a healthy HTTP endpoint,
returns a successful result obtained from the HTTPX strategy — the fetch
does not fail with a `ScraperError`, contradicting the claim that a fetch
before start never silently falls back to the HTTP strategy. -/
theorem c8_counterexample :
    web_scraper_fetch ⟨some ⟨false⟩⟩ (fun _ => .noResponse)
      (fun _ => .ok (str "body")) (fun _ => str "T")
      (fun t => t) (fun t => t) (fun _ => false) (str "u") true
      = .ok ⟨str "u", str "body", str "T"⟩ := rfl

/-- C8 (amended): `PlaywrightScraper.fetch` before `start` raises
`ScraperError("Browser not started. Use async context manager.")`, and
`WebScraper.fetch` propagates that error when fallback is disallowed; with
fallback enabled (the default) it instead falls back to the HTTPX
strategy. -/
theorem c8_not_started_behaviour (nav : PyStr → NavOutcome)
    (http : PyStr → HttpxOutcome) (titleOf : PyStr → PyStr)
    (readabilityText basicText : PyStr → PyStr) (readabilityFails : PyStr → Bool)
    (url : PyStr) :
    playwright_fetch ⟨false⟩ nav readabilityText basicText readabilityFails url
      = .error (str "Browser not started. Use async context manager.")
    ∧ web_scraper_fetch ⟨some ⟨false⟩⟩ nav http titleOf
        readabilityText basicText readabilityFails url false
      = .error (str "Browser not started. Use async context manager.")
    ∧ web_scraper_fetch ⟨some ⟨false⟩⟩ nav http titleOf
        readabilityText basicText readabilityFails url true
      = httpx_fetch http titleOf readabilityText basicText readabilityFails url :=
  ⟨rfl, rfl, rfl⟩

/-- Every row of an upserted table is the upserted row or an original
row. -/
theorem mem_upsert {α : Type} (k : PyStr) (v : α) (t : List (PyStr × α))
    (p : PyStr × α) : p ∈ upsert k v t → p = (k, v) ∨ p ∈ t := by
  induction t with
  | nil =>
    intro hp
    rw [upsert, List.mem_singleton] at hp
    exact Or.inl hp
  | cons w ws ihw =>
    intro hp
    obtain ⟨kw, vw⟩ := w
    by_cases hw : k = kw
    · rw [upsert, if_pos hw] at hp
      rcases List.mem_cons.mp hp with hp1 | hp1
      · exact Or.inl hp1
      · exact Or.inr (List.mem_cons.mpr (Or.inr hp1))
    · rw [upsert, if_neg hw] at hp
      rcases List.mem_cons.mp hp with hp1 | hp1
      · exact Or.inr (List.mem_cons.mpr (Or.inl hp1))
      · rcases ihw hp1 with hh | hh
        · exact Or.inl hh
        · exact Or.inr (List.mem_cons.mpr (Or.inr hh))

/-- Upserting preserves distinctness of the primary keys. -/
theorem nodup_keys_upsert {α : Type} (k : PyStr) (v : α) (t : List (PyStr × α))
    (hnodup : (t.map Prod.fst).Nodup) : ((upsert k v t).map Prod.fst).Nodup := by
  induction t with
  | nil => simp [upsert]
  | cons w ws ihw =>
    obtain ⟨kw, vw⟩ := w
    rw [List.map_cons, List.nodup_cons] at hnodup
    obtain ⟨hkw, hws⟩ := hnodup
    by_cases hw : k = kw
    · rw [upsert, if_pos hw, List.map_cons, List.nodup_cons]
      rw [← hw] at hkw
      exact ⟨hkw, hws⟩
    · rw [upsert, if_neg hw, List.map_cons, List.nodup_cons]
      refine ⟨?_, ihw hws⟩
      intro hmem
      rw [List.mem_map] at hmem
      obtain ⟨p, hp, hpk⟩ := hmem
      rcases mem_upsert k v ws p hp with h1 | h1
      · apply hw
        rw [h1] at hpk
        simpa using hpk
      · apply hkw
        rw [← hpk]
        exact List.mem_map_of_mem Prod.fst h1

/-- Upserting a row keyed by the hash of its own URL preserves table
well-formedness. -/
theorem tableWF_upsert {α : Type} (geturl : α → PyStr) (h : PyStr → PyStr)
    (t : List (PyStr × α)) (v : α) (hwf : tableWF geturl h t) :
    tableWF geturl h (upsert (h (geturl v)) v t) := by
  obtain ⟨hnodup, hcons⟩ := hwf
  refine ⟨nodup_keys_upsert _ _ _ hnodup, ?_⟩
  intro p hp
  rcases mem_upsert _ _ _ p hp with h1 | h1
  · rw [h1]
  · exact hcons p h1

/-- C9: storing two results of the same kind for the same URL is an upsert:
afterwards the table holds exactly one row for that URL, and a lookup
returns the second stored value with all fields equal — store-then-get is a
round trip whose latest write wins; likewise for metadata. -/
theorem c9_cache_upsert_roundtrip (h : PyStr → PyStr) (c : Cache)
    (r1 r2 : ScrapeResult) (m1 m2 : LLMMetadata)
    (hwf : Cache.wf h c) (_hr : r1.url = r2.url) (_hm : m1.url = m2.url) :
    get_scrape_result h (store_scrape_result h (store_scrape_result h c r1) r2) r2.url
      = some r2
    ∧ (store_scrape_result h (store_scrape_result h c r1) r2).scrapeRows.countP
        (fun p => p.2.url == r2.url) = 1
    ∧ get_llm_metadata h (store_llm_metadata h (store_llm_metadata h c m1) m2) m2.url
      = some m2
    ∧ (store_llm_metadata h (store_llm_metadata h c m1) m2).metaRows.countP
        (fun p => p.2.url == m2.url) = 1 := by
  obtain ⟨hwfS, hwfM⟩ := hwf
  have hwfS1 : tableWF ScrapeResult.url h (store_scrape_result h c r1).scrapeRows :=
    tableWF_upsert ScrapeResult.url h c.scrapeRows r1 hwfS
  have hwfM1 : tableWF LLMMetadata.url h (store_llm_metadata h c m1).metaRows :=
    tableWF_upsert LLMMetadata.url h c.metaRows m1 hwfM
  refine ⟨?_, ?_, ?_, ?_⟩
  · unfold get_scrape_result store_scrape_result
    exact lookup_upsert_self _ _ _
  · have := countP_url_upsert ScrapeResult.url h
      (store_scrape_result h c r1).scrapeRows r2.url r2 hwfS1 rfl
    exact this
  · unfold get_llm_metadata store_llm_metadata
    exact lookup_upsert_self _ _ _
  · have := countP_url_upsert LLMMetadata.url h
      (store_llm_metadata h c m1).metaRows m2.url m2 hwfM1 rfl
    exact this

/-- Witness for C9: two writes of the same URL into the empty cache. -/
theorem c9_cache_upsert_roundtrip_witness :
    get_scrape_result (fun u => u)
      (store_scrape_result (fun u => u)
        (store_scrape_result (fun u => u) Cache.empty ⟨str "u", str "t1", str "p1"⟩)
        ⟨str "u", str "t2", str "p2"⟩) (str "u")
      = some ⟨str "u", str "t2", str "p2"⟩
    ∧ (store_scrape_result (fun u => u)
        (store_scrape_result (fun u => u) Cache.empty ⟨str "u", str "t1", str "p1"⟩)
        ⟨str "u", str "t2", str "p2"⟩).scrapeRows.countP
          (fun p => p.2.url == str "u") = 1
    ∧ get_llm_metadata (fun u => u)
      (store_llm_metadata (fun u => u)
        (store_llm_metadata (fun u => u) Cache.empty ⟨str "u", str "n1", str "d1", 1⟩)
        ⟨str "u", str "n2", str "d2", 2⟩) (str "u")
      = some ⟨str "u", str "n2", str "d2", 2⟩
    ∧ (store_llm_metadata (fun u => u)
        (store_llm_metadata (fun u => u) Cache.empty ⟨str "u", str "n1", str "d1", 1⟩)
        ⟨str "u", str "n2", str "d2", 2⟩).metaRows.countP
          (fun p => p.2.url == str "u") = 1 :=
  c9_cache_upsert_roundtrip (fun u => u) Cache.empty
    ⟨str "u", str "t1", str "p1"⟩ ⟨str "u", str "t2", str "p2"⟩
    ⟨str "u", str "n1", str "d1", 1⟩ ⟨str "u", str "n2", str "d2", 2⟩
    ⟨⟨List.nodup_nil, by intro p hp; cases hp⟩, ⟨List.nodup_nil, by intro p hp; cases hp⟩⟩
    rfl rfl

/-- Projections commute: storing a scrape result does not change the
metadata table, so a metadata lookup afterwards reads the original cache. -/
theorem get_llm_metadata_store_scrape (h : PyStr → PyStr) (c : Cache)
    (r : ScrapeResult) (url : PyStr) :
    get_llm_metadata h (store_scrape_result h c r) url = get_llm_metadata h c url := rfl

/-- C1: when both the scrape result and the metadata for the bookmark URL
are cached, `process_bookmark` with caching enabled and
`force_refresh=False` returns a success outcome built from the cached
values with `used_cache=True`, leaves the cache unchanged, and makes no
scraper or LLM call. -/
theorem c1_cache_first (env : PipelineEnv) (c : Cache) (b : BookmarkRecord)
    (sr : ScrapeResult) (m : LLMMetadata)
    (hs : get_scrape_result env.hashUrl c b.url = some sr)
    (hm : get_llm_metadata env.hashUrl c b.url = some m) :
    process_bookmark env true false c b = ⟨⟨b, some sr, some m, none, true⟩, c, ⟨0, 0⟩⟩
    ∧ (process_bookmark env true false c b).result.success = true := by
  have h1 : process_bookmark env true false c b
      = ⟨⟨b, some sr, some m, none, true⟩, c, ⟨0, 0⟩⟩ := by
    simp [process_bookmark, process_bookmark_step2, hs, hm]
  exact ⟨h1, by rw [h1]; rfl⟩

/-- Collaborators of the concrete witnesses: identity hash, a scraper that
would raise an unexpected exception and an LLM service that would raise
`LLMError("boom")` if they were ever called. -/
def wEnv : PipelineEnv :=
  ⟨fun u => u, fun _ => .unexpected [], fun _ => .llmError (str "boom"), fun _ => none⟩

/-- Cached scrape result of the concrete witnesses. -/
def wSr : ScrapeResult := ⟨str "u", str "text", str "title"⟩

/-- Cached metadata of the concrete witnesses. -/
def wMeta : LLMMetadata := ⟨str "u", str "nm", str "ds", 7⟩

/-- Witness cache holding both entries for URL `u`. -/
def wCacheBoth : Cache := ⟨[(str "u", wSr)], [(str "u", wMeta)]⟩

/-- Witness cache holding only the scrape entry for URL `u`. -/
def wCacheScrapeOnly : Cache := ⟨[(str "u", wSr)], []⟩

/-- Witness bookmark pointing at URL `u`. -/
def wB : BookmarkRecord := ⟨str "id", str "t", str "u", 0⟩

/-- Witness for C1 at a cache holding both entries. -/
theorem c1_cache_first_witness :
    process_bookmark wEnv true false wCacheBoth wB
      = ⟨⟨wB, some wSr, some wMeta, none, true⟩, wCacheBoth, ⟨0, 0⟩⟩
    ∧ (process_bookmark wEnv true false wCacheBoth wB).result.success = true :=
  c1_cache_first wEnv wCacheBoth wB wSr wMeta rfl rfl

/-- C5 counterexample: with only the extraction cached and a failing
generator, the cached extraction is reused (no scraper call is made and
the cached object is carried in the outcome), the outcome is an LLM
failure, and yet `used_cache` is `False` — the LLM-error return at
pipeline line 174 does not pass the accumulated flag through,
contradicting the claimed "used_cache iff some cached value was reused,
including failures". -/
theorem c5_counterexample :
    (process_bookmark wEnv true false wCacheScrapeOnly wB).calls.scrapeCalls = 0
    ∧ (process_bookmark wEnv true false wCacheScrapeOnly wB).result.scrape_result = some wSr
    ∧ get_scrape_result wEnv.hashUrl wCacheScrapeOnly wB.url = some wSr
    ∧ (process_bookmark wEnv true false wCacheScrapeOnly wB).result.error
        = some (str "LLM processing failed: boom")
    ∧ (process_bookmark wEnv true false wCacheScrapeOnly wB).result.used_cache = false := by
  refine ⟨rfl, rfl, rfl, ?_, rfl⟩
  decide

/-- C5 (amended): with caching enabled and `force_refresh=False`,
`used_cache` is `True` iff at least one cached value was reused and the
outcome is a success; every failure outcome reports `used_cache=False`,
even when a cached extraction was reused before the failure.  Reuse of a
cached value on the success path is equivalent to having skipped the
corresponding collaborator call. -/
theorem c5_used_cache_flag (env : PipelineEnv) (c : Cache) (b : BookmarkRecord) :
    ((process_bookmark env true false c b).result.error.isSome = true →
      (process_bookmark env true false c b).result.used_cache = false)
    ∧ ((process_bookmark env true false c b).result.error = none →
      ((process_bookmark env true false c b).result.used_cache = true ↔
        ((process_bookmark env true false c b).calls.scrapeCalls = 0
          ∨ (process_bookmark env true false c b).calls.llmCalls = 0))) := by
  have hmeta : ∀ r : ScrapeResult,
      get_llm_metadata env.hashUrl (store_scrape_result env.hashUrl c r) b.url
        = get_llm_metadata env.hashUrl c b.url := fun _ => rfl
  rcases hcs : get_scrape_result env.hashUrl c b.url with _ | sr
  · rcases hsf : env.scraperFetch b.url with r | e | e
    · rcases hcm : get_llm_metadata env.hashUrl c b.url with _ | m
      · rcases hlg : env.llmGenerate r with m2 | e | e <;>
          simp [process_bookmark, process_bookmark_step2, hcs, hsf, hmeta, hcm, hlg]
      · simp [process_bookmark, process_bookmark_step2, hcs, hsf, hmeta, hcm]
    · simp [process_bookmark, hcs, hsf]
    · simp [process_bookmark, hcs, hsf]
  · rcases hcm : get_llm_metadata env.hashUrl c b.url with _ | m
    · rcases hlg : env.llmGenerate sr with m2 | e | e <;>
        simp [process_bookmark, process_bookmark_step2, hcs, hcm, hlg]
    · simp [process_bookmark, process_bookmark_step2, hcs, hcm]

/-- Witness for C5 (amended): a failure outcome after cached-extraction
reuse reports the flag false; a fully cached success reports it true. -/
theorem c5_used_cache_flag_witness :
    (process_bookmark wEnv true false wCacheScrapeOnly wB).result.used_cache = false
    ∧ (process_bookmark wEnv true false wCacheBoth wB).result.used_cache = true :=
  ⟨(c5_used_cache_flag wEnv wCacheScrapeOnly wB).1 rfl,
    ((c5_used_cache_flag wEnv wCacheBoth wB).2 rfl).mpr (Or.inl rfl)⟩

/-- Every branch of `process_bookmark` carries the input bookmark into the
outcome. -/
theorem process_bookmark_bookmark (env : PipelineEnv) (uc fr : Bool)
    (c : Cache) (b : BookmarkRecord) :
    (process_bookmark env uc fr c b).result.bookmark = b := by
  rcases hcs : (if uc && !fr then get_scrape_result env.hashUrl c b.url else none)
    with _ | sr
  · rcases hsf : env.scraperFetch b.url with sr | e | e
    · rcases hcm : (if uc && !fr then
          get_llm_metadata env.hashUrl
            (if uc then store_scrape_result env.hashUrl c sr else c) b.url
        else none) with _ | m
      · rcases hlg : env.llmGenerate sr with m | e | e <;>
          simp only [process_bookmark, process_bookmark_step2, hcs, hsf, hcm, hlg]
      · simp only [process_bookmark, process_bookmark_step2, hcs, hsf, hcm]
    · simp only [process_bookmark, hcs, hsf]
    · simp only [process_bookmark, hcs, hsf]
  · rcases hcm : (if uc && !fr then get_llm_metadata env.hashUrl c b.url else none)
      with _ | m
    · rcases hlg : env.llmGenerate sr with m | e | e <;>
        simp only [process_bookmark, process_bookmark_step2, hcs, hcm, hlg]
    · simp only [process_bookmark, process_bookmark_step2, hcs, hcm]

/-- A cache-missed bookmark whose scrape raises `ScraperError` yields the
`"Scraping failed"` outcome, leaves the cache unchanged, and stops before
the LLM step. -/
theorem process_bookmark_scrape_fail (env : PipelineEnv) (uc fr : Bool)
    (c : Cache) (b : BookmarkRecord) (e : PyStr)
    (h1 : get_scrape_result env.hashUrl c b.url = none)
    (h2 : env.scraperFetch b.url = .scraperError e) :
    process_bookmark env uc fr c b
      = ⟨⟨b, none, none, some (str "Scraping failed: " ++ e), false⟩, c, ⟨1, 0⟩⟩ := by
  simp [process_bookmark, h1, h2]

/-- A cache-missed bookmark whose scrape raises an unexpected exception is
caught at the item boundary as `"Unexpected error"`. -/
theorem process_bookmark_unexpected_fail (env : PipelineEnv) (uc fr : Bool)
    (c : Cache) (b : BookmarkRecord) (e : PyStr)
    (h1 : get_scrape_result env.hashUrl c b.url = none)
    (h2 : env.scraperFetch b.url = .unexpected e) :
    process_bookmark env uc fr c b
      = ⟨⟨b, none, none, some (str "Unexpected error: " ++ e), false⟩, c, ⟨1, 0⟩⟩ := by
  simp [process_bookmark, h1, h2]

/-- A fresh scrape followed by an `LLMError` yields the
`"LLM processing failed"` outcome with the scrape result retained. -/
theorem process_bookmark_llm_fail (env : PipelineEnv) (uc fr : Bool)
    (c : Cache) (b : BookmarkRecord) (sr : ScrapeResult) (e : PyStr)
    (h1 : get_scrape_result env.hashUrl c b.url = none)
    (h2 : env.scraperFetch b.url = .ok sr)
    (h3 : get_llm_metadata env.hashUrl c b.url = none)
    (h4 : env.llmGenerate sr = .llmError e) :
    process_bookmark env uc fr c b
      = ⟨⟨b, some sr, none, some (str "LLM processing failed: " ++ e), false⟩,
          if uc then store_scrape_result env.hashUrl c sr else c, ⟨1, 1⟩⟩ := by
  cases uc <;>
    simp [process_bookmark, process_bookmark_step2, h1, h2, h3, h4,
      get_llm_metadata_store_scrape]

/-- A fully fresh success with caching enabled stores both results. -/
theorem process_bookmark_success_fresh (env : PipelineEnv)
    (c : Cache) (b : BookmarkRecord) (sr : ScrapeResult) (m : LLMMetadata)
    (h1 : get_scrape_result env.hashUrl c b.url = none)
    (h2 : env.scraperFetch b.url = .ok sr)
    (h3 : get_llm_metadata env.hashUrl c b.url = none)
    (h4 : env.llmGenerate sr = .ok m) :
    process_bookmark env true false c b
      = ⟨⟨b, some sr, some m, none, false⟩,
          store_llm_metadata env.hashUrl (store_scrape_result env.hashUrl c sr) m,
          ⟨1, 1⟩⟩ := by
  simp [process_bookmark, process_bookmark_step2, h1, h2, h3, h4,
    get_llm_metadata_store_scrape]

/-- One step of `run_schedule` on an in-range task index whose wrapper does
not raise. -/
theorem run_schedule_fst_cons (env : PipelineEnv) (uc fr : Bool)
    (bs : List BookmarkRecord) (i : Nat) (rest : List Nat) (c : Cache)
    (b : BookmarkRecord) (out : StepOut)
    (hb : bs[i]? = some b)
    (ht : env.taskExn i = none)
    (ho : process_bookmark env uc fr c b = out) :
    (run_schedule env uc fr bs (i :: rest) c).1
      = (i, Except.ok out.result) :: (run_schedule env uc fr bs rest out.cache).1 := by
  simp only [run_schedule, hb, ht, ho]

/-- A slot value recovered from any schedule run is the processing result
of the bookmark at that input index, so it carries that bookmark. -/
theorem run_schedule_lookup_ok (env : PipelineEnv) (uc fr : Bool)
    (bs : List BookmarkRecord) :
    ∀ (sched : List Nat) (c : Cache) (i : Nat) (r : ProcessingResult),
      (run_schedule env uc fr bs sched c).1.lookup i = some (.ok r) →
      r.bookmark = bs.getD i dfltBookmark := by
  intro sched
  induction sched with
  | nil =>
    intro c i r hl
    simp [run_schedule, List.lookup] at hl
  | cons j rest ih =>
    intro c i r hl
    rw [run_schedule] at hl
    rcases hj : bs[j]? with _ | b
    · rw [hj] at hl
      exact ih _ i r hl
    · rw [hj] at hl
      simp only [List.lookup] at hl
      by_cases hij : (i == j) = true
      · rw [hij] at hl
        rcases ht : env.taskExn j with _ | e
        · rw [ht] at hl
          dsimp only at hl
          simp only [Option.some.injEq, Except.ok.injEq] at hl
          have hbj : bs.getD j dfltBookmark = b := by
            rw [List.getD_eq_getElem?_getD, hj]
            rfl
          rw [eq_of_beq hij, hbj, ← hl, process_bookmark_bookmark]
        · rw [ht] at hl
          dsimp only at hl
          simp at hl
      · have hf : (i == j) = false := by
          cases hb : (i == j)
          · rfl
          · exact absurd hb hij
        rw [hf] at hl
        dsimp only at hl
        exact ih _ i r hl

/-- C3: for every environment, cache state and completion schedule,
`process_bookmarks` returns exactly one outcome per input bookmark and the
i-th outcome carries the i-th input bookmark — the result sequence follows
input order, not completion order. -/
theorem c3_order_preservation (env : PipelineEnv) (use_cache force_refresh : Bool)
    (bs : List BookmarkRecord) (sched : List Nat) (c : Cache) :
    (process_bookmarks env use_cache force_refresh bs sched c).length = bs.length
    ∧ ∀ i : Nat,
      ((process_bookmarks env use_cache force_refresh bs sched c).getD i
          dfltOutcome).bookmark
        = bs.getD i dfltBookmark := by
  constructor
  · simp [process_bookmarks, gather_results]
  · intro i
    by_cases hi : i < bs.length
    · have hmap : (process_bookmarks env use_cache force_refresh bs sched c)[i]?
          = some (match (run_schedule env use_cache force_refresh bs sched c).1.lookup i with
            | some (.ok r) => r
            | some (.error e) =>
                ⟨bs.getD i dfltBookmark, none, none, some (str "Task failed: " ++ e), false⟩
            | none => { dfltOutcome with bookmark := bs.getD i dfltBookmark }) := by
        rw [process_bookmarks, gather_results, List.getElem?_map, List.getElem?_range hi]
        rfl
      rw [List.getD_eq_getElem?_getD, hmap]
      rcases hsl : (run_schedule env use_cache force_refresh bs sched c).1.lookup i
        with _ | v
      · rfl
      · rcases v with e | r
        · rfl
        · exact run_schedule_lookup_ok env use_cache force_refresh bs sched c i r hsl
    · have hlen : (process_bookmarks env use_cache force_refresh bs sched c).length
          = bs.length := by
        simp [process_bookmarks, gather_results]
      rw [List.getD_eq_getElem?_getD, List.getElem?_eq_none (by omega),
        List.getD_eq_getElem?_getD, List.getElem?_eq_none (by omega)]
      rfl

/-- A scrape lookup is unaffected by storing a scrape result with a
different URL hash. -/
theorem get_scrape_result_store_scrape_ne (h : PyStr → PyStr) (c : Cache)
    (r : ScrapeResult) (u : PyStr) (hne : h u ≠ h r.url) :
    get_scrape_result h (store_scrape_result h c r) u = get_scrape_result h c u :=
  lookup_upsert_ne _ _ _ _ hne

/-- A scrape lookup is unaffected by storing metadata. -/
theorem get_scrape_result_store_meta (h : PyStr → PyStr) (c : Cache)
    (m : LLMMetadata) (u : PyStr) :
    get_scrape_result h (store_llm_metadata h c m) u = get_scrape_result h c u := rfl

/-- A metadata lookup is unaffected by storing metadata with a different
URL hash. -/
theorem get_llm_metadata_store_meta_ne (h : PyStr → PyStr) (c : Cache)
    (m : LLMMetadata) (u : PyStr) (hne : h u ≠ h m.url) :
    get_llm_metadata h (store_llm_metadata h c m) u = get_llm_metadata h c u :=
  lookup_upsert_ne _ _ _ _ hne

/-- C2: an item-level failure is confined to its own outcome.  Part 1: a
raised `ScraperError` becomes that item's `"Scraping failed"` failure
outcome, cache untouched.  Part 2: a raised `LLMError` becomes that item's
`"LLM processing failed"` failure outcome, scrape result retained.
Part 3: any unexpected exception is caught at the item boundary as an
`"Unexpected error"` failure outcome.  Part 4: in the spec's batch
scenario — three bookmarks of which the second fails extraction —
`process_bookmarks` returns, under every completion schedule, exactly
three outcomes in input order: success, `"Scraping failed"` failure,
success; no item-level error aborts the batch. -/
theorem c2_partial_failure_isolation :
    (∀ (env : PipelineEnv) (uc fr : Bool) (c : Cache) (b : BookmarkRecord) (e : PyStr),
      get_scrape_result env.hashUrl c b.url = none →
      env.scraperFetch b.url = .scraperError e →
      process_bookmark env uc fr c b
        = ⟨⟨b, none, none, some (str "Scraping failed: " ++ e), false⟩, c, ⟨1, 0⟩⟩)
    ∧ (∀ (env : PipelineEnv) (uc fr : Bool) (c : Cache) (b : BookmarkRecord)
        (sr : ScrapeResult) (e : PyStr),
      get_scrape_result env.hashUrl c b.url = none →
      env.scraperFetch b.url = .ok sr →
      get_llm_metadata env.hashUrl c b.url = none →
      env.llmGenerate sr = .llmError e →
      process_bookmark env uc fr c b
        = ⟨⟨b, some sr, none, some (str "LLM processing failed: " ++ e), false⟩,
            if uc then store_scrape_result env.hashUrl c sr else c, ⟨1, 1⟩⟩)
    ∧ (∀ (env : PipelineEnv) (uc fr : Bool) (c : Cache) (b : BookmarkRecord) (e : PyStr),
      get_scrape_result env.hashUrl c b.url = none →
      env.scraperFetch b.url = .unexpected e →
      process_bookmark env uc fr c b
        = ⟨⟨b, none, none, some (str "Unexpected error: " ++ e), false⟩, c, ⟨1, 0⟩⟩)
    ∧ (∀ (env : PipelineEnv) (b0 b1 b2 : BookmarkRecord) (s0 s2 : ScrapeResult)
        (m0 m2 : LLMMetadata) (e : PyStr) (sched : List Nat),
      env.scraperFetch b0.url = .ok s0 → s0.url = b0.url →
      env.llmGenerate s0 = .ok m0 → m0.url = b0.url →
      env.scraperFetch b1.url = .scraperError e →
      env.scraperFetch b2.url = .ok s2 → s2.url = b2.url →
      env.llmGenerate s2 = .ok m2 → m2.url = b2.url →
      (∀ i, env.taskExn i = none) →
      env.hashUrl b0.url ≠ env.hashUrl b1.url →
      env.hashUrl b0.url ≠ env.hashUrl b2.url →
      env.hashUrl b1.url ≠ env.hashUrl b2.url →
      sched.Perm [0, 1, 2] →
      process_bookmarks env true false [b0, b1, b2] sched Cache.empty
        = [⟨b0, some s0, some m0, none, false⟩,
           ⟨b1, none, none, some (str "Scraping failed: " ++ e), false⟩,
           ⟨b2, some s2, some m2, none, false⟩]) := by
  refine ⟨process_bookmark_scrape_fail, process_bookmark_llm_fail,
    process_bookmark_unexpected_fail, ?_⟩
  intro env b0 b1 b2 s0 s2 m0 m2 e sched
  intro hsf0 hs0 hlg0 hm0 hsf1 hsf2 hs2 hlg2 hm2 htask h01 h02 h12 hperm
  -- abbreviations used below
  have run0 : ∀ c : Cache, get_scrape_result env.hashUrl c b0.url = none →
      get_llm_metadata env.hashUrl c b0.url = none →
      process_bookmark env true false c b0
        = ⟨⟨b0, some s0, some m0, none, false⟩,
            store_llm_metadata env.hashUrl (store_scrape_result env.hashUrl c s0) m0,
            ⟨1, 1⟩⟩ :=
    fun c hA hB => process_bookmark_success_fresh env c b0 s0 m0 hA hsf0 hB hlg0
  have run2 : ∀ c : Cache, get_scrape_result env.hashUrl c b2.url = none →
      get_llm_metadata env.hashUrl c b2.url = none →
      process_bookmark env true false c b2
        = ⟨⟨b2, some s2, some m2, none, false⟩,
            store_llm_metadata env.hashUrl (store_scrape_result env.hashUrl c s2) m2,
            ⟨1, 1⟩⟩ :=
    fun c hA hB => process_bookmark_success_fresh env c b2 s2 m2 hA hsf2 hB hlg2
  have run1 : ∀ c : Cache, get_scrape_result env.hashUrl c b1.url = none →
      process_bookmark env true false c b1
        = ⟨⟨b1, none, none, some (str "Scraping failed: " ++ e), false⟩, c, ⟨1, 0⟩⟩ :=
    fun c hA => process_bookmark_scrape_fail env true false c b1 e hA hsf1
  have freshS : ∀ (c : Cache) (u : PyStr), get_scrape_result env.hashUrl c u = none →
      ∀ (sr : ScrapeResult) (m : LLMMetadata), env.hashUrl u ≠ env.hashUrl sr.url →
      get_scrape_result env.hashUrl
        (store_llm_metadata env.hashUrl (store_scrape_result env.hashUrl c sr) m) u
        = none := by
    intro c u hu sr m hne
    rw [get_scrape_result_store_meta, get_scrape_result_store_scrape_ne _ _ _ _ hne, hu]
  have freshM : ∀ (c : Cache) (u : PyStr), get_llm_metadata env.hashUrl c u = none →
      ∀ (sr : ScrapeResult) (m : LLMMetadata), env.hashUrl u ≠ env.hashUrl m.url →
      get_llm_metadata env.hashUrl
        (store_llm_metadata env.hashUrl (store_scrape_result env.hashUrl c sr) m) u
        = none := by
    intro c u hu sr m hne
    rw [get_llm_metadata_store_meta_ne _ _ _ _ hne, get_llm_metadata_store_scrape, hu]
  have ne1s0 : env.hashUrl b1.url ≠ env.hashUrl s0.url := by
    rw [hs0]; exact Ne.symm h01
  have ne2s0 : env.hashUrl b2.url ≠ env.hashUrl s0.url := by
    rw [hs0]; exact Ne.symm h02
  have ne2m0 : env.hashUrl b2.url ≠ env.hashUrl m0.url := by
    rw [hm0]; exact Ne.symm h02
  have ne0s2 : env.hashUrl b0.url ≠ env.hashUrl s2.url := by
    rw [hs2]; exact h02
  have ne0m2 : env.hashUrl b0.url ≠ env.hashUrl m2.url := by
    rw [hm2]; exact h02
  have ne1s2 : env.hashUrl b1.url ≠ env.hashUrl s2.url := by
    rw [hs2]; exact h12
  -- the schedule is one of the six permutations of [0, 1, 2]
  obtain ⟨x, y, z, rfl⟩ : ∃ x y z, sched = [x, y, z] := by
    rcases sched with _ | ⟨x, _ | ⟨y, _ | ⟨z, _ | ⟨w, rest⟩⟩⟩⟩
    · exfalso; have := hperm.length_eq; simp at this
    · exfalso; have := hperm.length_eq; simp at this
    · exfalso; have := hperm.length_eq; simp at this
    · exact ⟨x, y, z, rfl⟩
    · exfalso; have := hperm.length_eq; simp at this
  have hx : x ∈ ([0, 1, 2] : List Nat) := hperm.subset (by simp)
  have hy : y ∈ ([0, 1, 2] : List Nat) := hperm.subset (by simp)
  have hz : z ∈ ([0, 1, 2] : List Nat) := hperm.subset (by simp)
  have hnd : ([x, y, z] : List Nat).Nodup := hperm.nodup_iff.mpr (by decide)
  simp only [List.mem_cons, List.mem_singleton, List.not_mem_nil, or_false] at hx hy hz
  simp only [List.nodup_cons, List.mem_cons, List.mem_singleton, List.not_mem_nil,
    or_false, not_or, List.nodup_nil, and_true] at hnd
  obtain ⟨⟨hxy, hxz⟩, hyz⟩ := hnd
  rcases hx with rfl | rfl | rfl <;> rcases hy with rfl | rfl | rfl <;>
    rcases hz with rfl | rfl | rfl
  all_goals try omega
  -- schedule [0, 1, 2]
  · have st1 : (run_schedule env true false [b0, b1, b2] [0, 1, 2] Cache.empty).1
        = (0, Except.ok (⟨b0, some s0, some m0, none, false⟩ : ProcessingResult))
          :: (run_schedule env true false [b0, b1, b2] [1, 2]
              (store_llm_metadata env.hashUrl
                (store_scrape_result env.hashUrl Cache.empty s0) m0)).1 :=
      run_schedule_fst_cons env true false _ 0 _ _ b0 _ rfl (htask 0)
        (run0 Cache.empty rfl rfl)
    have st2 : (run_schedule env true false [b0, b1, b2] [1, 2]
          (store_llm_metadata env.hashUrl
            (store_scrape_result env.hashUrl Cache.empty s0) m0)).1
        = (1, Except.ok (⟨b1, none, none,
              some (str "Scraping failed: " ++ e), false⟩ : ProcessingResult))
          :: (run_schedule env true false [b0, b1, b2] [2]
              (store_llm_metadata env.hashUrl
                (store_scrape_result env.hashUrl Cache.empty s0) m0)).1 :=
      run_schedule_fst_cons env true false _ 1 _ _ b1 _ rfl (htask 1)
        (run1 _ (freshS Cache.empty b1.url rfl s0 m0 ne1s0))
    have st3 : (run_schedule env true false [b0, b1, b2] [2]
          (store_llm_metadata env.hashUrl
            (store_scrape_result env.hashUrl Cache.empty s0) m0)).1
        = (2, Except.ok (⟨b2, some s2, some m2, none, false⟩ : ProcessingResult))
          :: (run_schedule env true false [b0, b1, b2] []
              (store_llm_metadata env.hashUrl (store_scrape_result env.hashUrl
                (store_llm_metadata env.hashUrl
                  (store_scrape_result env.hashUrl Cache.empty s0) m0) s2) m2)).1 :=
      run_schedule_fst_cons env true false _ 2 _ _ b2 _ rfl (htask 2)
        (run2 _ (freshS Cache.empty b2.url rfl s0 m0 ne2s0)
          (freshM Cache.empty b2.url rfl s0 m0 ne2m0))
    unfold process_bookmarks
    rw [st1, st2, st3]
    rfl
  -- schedule [0, 2, 1]
  · have st1 : (run_schedule env true false [b0, b1, b2] [0, 2, 1] Cache.empty).1
        = (0, Except.ok (⟨b0, some s0, some m0, none, false⟩ : ProcessingResult))
          :: (run_schedule env true false [b0, b1, b2] [2, 1]
              (store_llm_metadata env.hashUrl
                (store_scrape_result env.hashUrl Cache.empty s0) m0)).1 :=
      run_schedule_fst_cons env true false _ 0 _ _ b0 _ rfl (htask 0)
        (run0 Cache.empty rfl rfl)
    have st2 : (run_schedule env true false [b0, b1, b2] [2, 1]
          (store_llm_metadata env.hashUrl
            (store_scrape_result env.hashUrl Cache.empty s0) m0)).1
        = (2, Except.ok (⟨b2, some s2, some m2, none, false⟩ : ProcessingResult))
          :: (run_schedule env true false [b0, b1, b2] [1]
              (store_llm_metadata env.hashUrl (store_scrape_result env.hashUrl
                (store_llm_metadata env.hashUrl
                  (store_scrape_result env.hashUrl Cache.empty s0) m0) s2) m2)).1 :=
      run_schedule_fst_cons env true false _ 2 _ _ b2 _ rfl (htask 2)
        (run2 _ (freshS Cache.empty b2.url rfl s0 m0 ne2s0)
          (freshM Cache.empty b2.url rfl s0 m0 ne2m0))
    have st3 : (run_schedule env true false [b0, b1, b2] [1]
          (store_llm_metadata env.hashUrl (store_scrape_result env.hashUrl
            (store_llm_metadata env.hashUrl
              (store_scrape_result env.hashUrl Cache.empty s0) m0) s2) m2)).1
        = (1, Except.ok (⟨b1, none, none,
              some (str "Scraping failed: " ++ e), false⟩ : ProcessingResult))
          :: (run_schedule env true false [b0, b1, b2] []
              (store_llm_metadata env.hashUrl (store_scrape_result env.hashUrl
                (store_llm_metadata env.hashUrl
                  (store_scrape_result env.hashUrl Cache.empty s0) m0) s2) m2)).1 :=
      run_schedule_fst_cons env true false _ 1 _ _ b1 _ rfl (htask 1)
        (run1 _ (freshS _ b1.url (freshS Cache.empty b1.url rfl s0 m0 ne1s0) s2 m2 ne1s2))
    unfold process_bookmarks
    rw [st1, st2, st3]
    rfl
  -- schedule [1, 0, 2]
  · have st1 : (run_schedule env true false [b0, b1, b2] [1, 0, 2] Cache.empty).1
        = (1, Except.ok (⟨b1, none, none,
              some (str "Scraping failed: " ++ e), false⟩ : ProcessingResult))
          :: (run_schedule env true false [b0, b1, b2] [0, 2] Cache.empty).1 :=
      run_schedule_fst_cons env true false _ 1 _ _ b1 _ rfl (htask 1)
        (run1 Cache.empty rfl)
    have st2 : (run_schedule env true false [b0, b1, b2] [0, 2] Cache.empty).1
        = (0, Except.ok (⟨b0, some s0, some m0, none, false⟩ : ProcessingResult))
          :: (run_schedule env true false [b0, b1, b2] [2]
              (store_llm_metadata env.hashUrl
                (store_scrape_result env.hashUrl Cache.empty s0) m0)).1 :=
      run_schedule_fst_cons env true false _ 0 _ _ b0 _ rfl (htask 0)
        (run0 Cache.empty rfl rfl)
    have st3 : (run_schedule env true false [b0, b1, b2] [2]
          (store_llm_metadata env.hashUrl
            (store_scrape_result env.hashUrl Cache.empty s0) m0)).1
        = (2, Except.ok (⟨b2, some s2, some m2, none, false⟩ : ProcessingResult))
          :: (run_schedule env true false [b0, b1, b2] []
              (store_llm_metadata env.hashUrl (store_scrape_result env.hashUrl
                (store_llm_metadata env.hashUrl
                  (store_scrape_result env.hashUrl Cache.empty s0) m0) s2) m2)).1 :=
      run_schedule_fst_cons env true false _ 2 _ _ b2 _ rfl (htask 2)
        (run2 _ (freshS Cache.empty b2.url rfl s0 m0 ne2s0)
          (freshM Cache.empty b2.url rfl s0 m0 ne2m0))
    unfold process_bookmarks
    rw [st1, st2, st3]
    rfl
  -- schedule [1, 2, 0]
  · have st1 : (run_schedule env true false [b0, b1, b2] [1, 2, 0] Cache.empty).1
        = (1, Except.ok (⟨b1, none, none,
              some (str "Scraping failed: " ++ e), false⟩ : ProcessingResult))
          :: (run_schedule env true false [b0, b1, b2] [2, 0] Cache.empty).1 :=
      run_schedule_fst_cons env true false _ 1 _ _ b1 _ rfl (htask 1)
        (run1 Cache.empty rfl)
    have st2 : (run_schedule env true false [b0, b1, b2] [2, 0] Cache.empty).1
        = (2, Except.ok (⟨b2, some s2, some m2, none, false⟩ : ProcessingResult))
          :: (run_schedule env true false [b0, b1, b2] [0]
              (store_llm_metadata env.hashUrl
                (store_scrape_result env.hashUrl Cache.empty s2) m2)).1 :=
      run_schedule_fst_cons env true false _ 2 _ _ b2 _ rfl (htask 2)
        (run2 Cache.empty rfl rfl)
    have st3 : (run_schedule env true false [b0, b1, b2] [0]
          (store_llm_metadata env.hashUrl
            (store_scrape_result env.hashUrl Cache.empty s2) m2)).1
        = (0, Except.ok (⟨b0, some s0, some m0, none, false⟩ : ProcessingResult))
          :: (run_schedule env true false [b0, b1, b2] []
              (store_llm_metadata env.hashUrl (store_scrape_result env.hashUrl
                (store_llm_metadata env.hashUrl
                  (store_scrape_result env.hashUrl Cache.empty s2) m2) s0) m0)).1 :=
      run_schedule_fst_cons env true false _ 0 _ _ b0 _ rfl (htask 0)
        (run0 _ (freshS Cache.empty b0.url rfl s2 m2 ne0s2)
          (freshM Cache.empty b0.url rfl s2 m2 ne0m2))
    unfold process_bookmarks
    rw [st1, st2, st3]
    rfl
  -- schedule [2, 0, 1]
  · have st1 : (run_schedule env true false [b0, b1, b2] [2, 0, 1] Cache.empty).1
        = (2, Except.ok (⟨b2, some s2, some m2, none, false⟩ : ProcessingResult))
          :: (run_schedule env true false [b0, b1, b2] [0, 1]
              (store_llm_metadata env.hashUrl
                (store_scrape_result env.hashUrl Cache.empty s2) m2)).1 :=
      run_schedule_fst_cons env true false _ 2 _ _ b2 _ rfl (htask 2)
        (run2 Cache.empty rfl rfl)
    have st2 : (run_schedule env true false [b0, b1, b2] [0, 1]
          (store_llm_metadata env.hashUrl
            (store_scrape_result env.hashUrl Cache.empty s2) m2)).1
        = (0, Except.ok (⟨b0, some s0, some m0, none, false⟩ : ProcessingResult))
          :: (run_schedule env true false [b0, b1, b2] [1]
              (store_llm_metadata env.hashUrl (store_scrape_result env.hashUrl
                (store_llm_metadata env.hashUrl
                  (store_scrape_result env.hashUrl Cache.empty s2) m2) s0) m0)).1 :=
      run_schedule_fst_cons env true false _ 0 _ _ b0 _ rfl (htask 0)
        (run0 _ (freshS Cache.empty b0.url rfl s2 m2 ne0s2)
          (freshM Cache.empty b0.url rfl s2 m2 ne0m2))
    have st3 : (run_schedule env true false [b0, b1, b2] [1]
          (store_llm_metadata env.hashUrl (store_scrape_result env.hashUrl
            (store_llm_metadata env.hashUrl
              (store_scrape_result env.hashUrl Cache.empty s2) m2) s0) m0)).1
        = (1, Except.ok (⟨b1, none, none,
              some (str "Scraping failed: " ++ e), false⟩ : ProcessingResult))
          :: (run_schedule env true false [b0, b1, b2] []
              (store_llm_metadata env.hashUrl (store_scrape_result env.hashUrl
                (store_llm_metadata env.hashUrl
                  (store_scrape_result env.hashUrl Cache.empty s2) m2) s0) m0)).1 :=
      run_schedule_fst_cons env true false _ 1 _ _ b1 _ rfl (htask 1)
        (run1 _ (freshS _ b1.url (freshS Cache.empty b1.url rfl s2 m2 ne1s2) s0 m0 ne1s0))
    unfold process_bookmarks
    rw [st1, st2, st3]
    rfl
  -- schedule [2, 1, 0]
  · have st1 : (run_schedule env true false [b0, b1, b2] [2, 1, 0] Cache.empty).1
        = (2, Except.ok (⟨b2, some s2, some m2, none, false⟩ : ProcessingResult))
          :: (run_schedule env true false [b0, b1, b2] [1, 0]
              (store_llm_metadata env.hashUrl
                (store_scrape_result env.hashUrl Cache.empty s2) m2)).1 :=
      run_schedule_fst_cons env true false _ 2 _ _ b2 _ rfl (htask 2)
        (run2 Cache.empty rfl rfl)
    have st2 : (run_schedule env true false [b0, b1, b2] [1, 0]
          (store_llm_metadata env.hashUrl
            (store_scrape_result env.hashUrl Cache.empty s2) m2)).1
        = (1, Except.ok (⟨b1, none, none,
              some (str "Scraping failed: " ++ e), false⟩ : ProcessingResult))
          :: (run_schedule env true false [b0, b1, b2] [0]
              (store_llm_metadata env.hashUrl
                (store_scrape_result env.hashUrl Cache.empty s2) m2)).1 :=
      run_schedule_fst_cons env true false _ 1 _ _ b1 _ rfl (htask 1)
        (run1 _ (freshS Cache.empty b1.url rfl s2 m2 ne1s2))
    have st3 : (run_schedule env true false [b0, b1, b2] [0]
          (store_llm_metadata env.hashUrl
            (store_scrape_result env.hashUrl Cache.empty s2) m2)).1
        = (0, Except.ok (⟨b0, some s0, some m0, none, false⟩ : ProcessingResult))
          :: (run_schedule env true false [b0, b1, b2] []
              (store_llm_metadata env.hashUrl (store_scrape_result env.hashUrl
                (store_llm_metadata env.hashUrl
                  (store_scrape_result env.hashUrl Cache.empty s2) m2) s0) m0)).1 :=
      run_schedule_fst_cons env true false _ 0 _ _ b0 _ rfl (htask 0)
        (run0 _ (freshS Cache.empty b0.url rfl s2 m2 ne0s2)
          (freshM Cache.empty b0.url rfl s2 m2 ne0m2))
    unfold process_bookmarks
    rw [st1, st2, st3]
    rfl

/-- First bookmark of the C2 witness batch. -/
def c2B0 : BookmarkRecord := ⟨str "i0", str "t0", str "a", 0⟩

/-- Second bookmark of the C2 witness batch (its extraction fails). -/
def c2B1 : BookmarkRecord := ⟨str "i1", str "t1", str "b", 0⟩

/-- Third bookmark of the C2 witness batch. -/
def c2B2 : BookmarkRecord := ⟨str "i2", str "t2", str "c", 0⟩

/-- Scrape result of the first C2 witness bookmark. -/
def c2S0 : ScrapeResult := ⟨str "a", str "ta", str "pa"⟩

/-- Scrape result of the third C2 witness bookmark. -/
def c2S2 : ScrapeResult := ⟨str "c", str "tc", str "pc"⟩

/-- Metadata of the first C2 witness bookmark. -/
def c2M0 : LLMMetadata := ⟨str "a", str "na", str "da", 1⟩

/-- Metadata of the third C2 witness bookmark. -/
def c2M2 : LLMMetadata := ⟨str "c", str "nc", str "dc", 2⟩

/-- C2 witness scraper: succeeds on URLs `a` and `c`, raises
`ScraperError("x")` on URL `b`. -/
def c2Fetch : PyStr → FetchOutcome := fun u =>
  if u = str "a" then .ok c2S0
  else if u = str "b" then .scraperError (str "x")
  else .ok c2S2

/-- C2 witness generator: succeeds on both scraped contents. -/
def c2Gen : ScrapeResult → GenOutcome := fun sr =>
  if sr.url = str "a" then .ok c2M0 else .ok c2M2

/-- C2 witness environment. -/
def c2Env : PipelineEnv := ⟨fun u => u, c2Fetch, c2Gen, fun _ => none⟩

/-- C2 witness environment whose generator always raises
`LLMError("y")`. -/
def c2EnvLLM : PipelineEnv :=
  ⟨fun u => u, fun _ => .ok c2S0, fun _ => .llmError (str "y"), fun _ => none⟩

/-- Witness for C2: the three-bookmark batch under the completion schedule
`[2, 0, 1]`, and the three per-item failure conversions at concrete
inputs. -/
theorem c2_partial_failure_isolation_witness :
    process_bookmarks c2Env true false [c2B0, c2B1, c2B2] [2, 0, 1] Cache.empty
      = [⟨c2B0, some c2S0, some c2M0, none, false⟩,
         ⟨c2B1, none, none, some (str "Scraping failed: " ++ str "x"), false⟩,
         ⟨c2B2, some c2S2, some c2M2, none, false⟩]
    ∧ process_bookmark c2Env true false Cache.empty c2B1
      = ⟨⟨c2B1, none, none, some (str "Scraping failed: " ++ str "x"), false⟩,
          Cache.empty, ⟨1, 0⟩⟩
    ∧ process_bookmark c2EnvLLM true false Cache.empty c2B0
      = ⟨⟨c2B0, some c2S0, none, some (str "LLM processing failed: " ++ str "y"), false⟩,
          store_scrape_result c2EnvLLM.hashUrl Cache.empty c2S0, ⟨1, 1⟩⟩
    ∧ process_bookmark wEnv true false Cache.empty c2B1
      = ⟨⟨c2B1, none, none, some (str "Unexpected error: " ++ []), false⟩,
          Cache.empty, ⟨1, 0⟩⟩ :=
  ⟨c2_partial_failure_isolation.2.2.2 c2Env c2B0 c2B1 c2B2 c2S0 c2S2 c2M0 c2M2
      (str "x") [2, 0, 1] rfl rfl rfl rfl rfl rfl rfl rfl rfl (fun _ => rfl)
      (by decide) (by decide) (by decide) (by decide),
    c2_partial_failure_isolation.1 c2Env true false Cache.empty c2B1 (str "x") rfl rfl,
    c2_partial_failure_isolation.2.1 c2EnvLLM true false Cache.empty c2B0 c2S0
      (str "y") rfl rfl rfl rfl,
    c2_partial_failure_isolation.2.2.1 wEnv true false Cache.empty c2B1 [] rfl rfl⟩

end OMBM
